import Mathlib

/-!
Shallow embedding of the cross-process memory introspection core of
`src/process/src/lib.rs` (crate `process` of tyhi/xivtools).

The Windows syscalls the crate calls (`K32EnumProcesses`, `OpenProcess`,
`K32GetModuleBaseNameA`, `K32EnumProcessModulesEx`, `K32GetModuleInformation`,
`ReadProcessMemory`, `GetLastError`) are modelled as oracles collected in an
environment record: the environment decides each call's status, its
`GetLastError` code and its outputs.  The embedded functions consult the
oracles exactly where the source issues the corresponding syscall and
reproduce the source's control flow around them.
-/

set_option maxRecDepth 8000

namespace XivTools

/-- Embeds `enum ProcessError` (src/process/src/lib.rs:16-28). -/
inductive ProcessError where
  | ProcessEnumeration (code : Nat)
  | ModuleEnumeration (handle : Nat) (code : Nat)
  | ModuleName (handle : Nat) (code : Nat)
  | ModuleInformation (name : String) (code : Nat)
  | NotFound (name : String)
  deriving DecidableEq, Repr

/-- Embeds `enum MemoryError` (src/process/src/lib.rs:30-38). -/
inductive MemoryError where
  | Read (addr : Nat) (code : Nat) (read : Nat)
  | IncorrectSize (expected : Nat) (actual : Nat)
  | NotFound
  deriving DecidableEq, Repr

/-- Embeds `struct ProcessModule` (src/process/src/lib.rs:41-46).
`base` is the `u64` base address, `size` the `usize` image size. -/
structure ProcessModule where
  name : String
  base : Nat
  size : Nat
  deriving DecidableEq, Repr

/-- Embeds `struct Process` (src/process/src/lib.rs:48-53); the Windows
`HANDLE` (an `isize`) is modelled as a `Nat`, with `0` playing the role of
the null handle. -/
structure Process where
  name : String
  handle : Nat
  modules : List ProcessModule
  deriving DecidableEq, Repr

/-- Oracle model of the OS surface used by `Process::new` and
`Process::get_process_modules`.  Each field answers one syscall:

* `enumOk` / `enumErr`: status and `GetLastError` of `K32EnumProcesses`.
* `pids`: the process-id table the OS would report.  `K32EnumProcesses`
  takes its buffer size `cb` in *bytes* and the source passes
  `processes.len() as u32 = 1024` — the element count of its `[u32; 1024]`
  array, not its byte size — so the syscall copies at most
  `1024 / 4 = 256` pids: it writes `min 256 pids.length` entries and sets
  `needed` to four times that count (it gives no indication when the
  buffer is too small).  The candidate list the source iterates,
  `processes.iter().take(needed / 4)`, is therefore `pids.take 256`.
* `openHandle pid`: the `HANDLE` produced by `OpenProcess` for `pid`,
  `0` meaning the open failed (`handle.is_null()`).
* `nameOk h` / `nameOf h`: status of `K32GetModuleBaseNameA` on handle `h`
  (`false` models a `0` return) and the string materialised from its
  name buffer on success.
* `modEnumOk h` / `modEnumErr h` / `modNeeded h`: status, error code and
  reported `needed` byte count of the outer `K32EnumProcessModulesEx` call.
* `modInnerOk h m` / `modInnerErr h m`: status and error code of the inner
  `K32EnumProcessModulesEx` call the per-module loop body issues for module
  handle `m` (the source issues this enumeration call, not a name query,
  at that point).
* `modInfoOk h m` / `modInfoErr h m` / `modInfoBase h m` / `modInfoSize h m`:
  status, error code and `MODULEINFO` outputs of `K32GetModuleInformation`. -/
structure OsEnv where
  enumOk : Bool
  enumErr : Nat
  pids : List Nat
  openHandle : Nat → Nat
  nameOk : Nat → Bool
  nameOf : Nat → String
  modEnumOk : Nat → Bool
  modEnumErr : Nat → Nat
  modNeeded : Nat → Nat
  modInnerOk : Nat → Nat → Bool
  modInnerErr : Nat → Nat → Nat
  modInfoOk : Nat → Nat → Bool
  modInfoErr : Nat → Nat → Nat
  modInfoBase : Nat → Nat → Nat
  modInfoSize : Nat → Nat → Nat

/-- The source's fixed enumeration buffer length: `let mut processes =
[0; 1024];` (src/process/src/lib.rs:76) and `Vec::with_capacity(1024)`
(src/process/src/lib.rs:132).  This element count, 1024, is also the value
the source passes as the *byte*-size `cb` argument of `K32EnumProcesses`
(src/process/src/lib.rs:80). -/
def enumBufLen : Nat := 1024

/-- The number of process ids one enumeration snapshot can actually hold:
`K32EnumProcesses` is told its buffer is `enumBufLen = 1024` *bytes*
(the source passes the element count as `cb`), and each id is a 4-byte
`u32`, so at most `1024 / 4 = 256` ids are copied. -/
def enumSnapshotCap : Nat := enumBufLen / 4

/-- Embeds the body of the per-module loop of
`Process::get_process_modules` (src/process/src/lib.rs:149-185), run over
the list of module handles the outer enumeration produced.

Faithfulness notes, traced from the source:
* The first call in the body (src/process/src/lib.rs:153-159) is
  `K32EnumProcessModulesEx`, not `K32GetModuleBaseNameA`: its output-array
  argument is the module handle itself cast to a pointer, its byte-count
  argument is `*buf.as_mut_ptr().cast::<u32>()` (the first four bytes of the
  zero-initialised 260-byte `buf`, i.e. `0`), and its `lpcbNeeded` argument
  is `buf.len() as *mut u32` (the integer 260 cast to a pointer).  Whatever
  this call does, it never writes into `buf`; on failure the loop aborts
  with `ModuleName(hnd as u32, GetLastError())`.
* The name is then read out of the untouched zeroed `buf`
  (src/process/src/lib.rs:164-167), so it is always the empty string.
* `K32GetModuleInformation` (src/process/src/lib.rs:170-178) fills
  `MODULEINFO`; on failure the loop aborts with
  `ModuleInformation(name, GetLastError())`.
* On success a `ProcessModule` is pushed with the (empty) name and the
  reported base and size. -/
def moduleLoop (env : OsEnv) (h : Nat) : List Nat → Except ProcessError (List ProcessModule)
  | [] => Except.ok []
  | m :: rest =>
    if env.modInnerOk h m = false then
      Except.error (ProcessError.ModuleName (h % 2 ^ 32) (env.modInnerErr h m))
    else
      let name : String := ""
      if env.modInfoOk h m = false then
        Except.error (ProcessError.ModuleInformation name (env.modInfoErr h m))
      else
        match moduleLoop env h rest with
        | Except.error e => Except.error e
        | Except.ok l =>
          Except.ok ({ name := name, base := env.modInfoBase h m,
                       size := env.modInfoSize h m } :: l)

/-- Embeds `Process::get_process_modules` (src/process/src/lib.rs:129-188).

The source allocates its module-handle buffer with
`Vec::with_capacity(1024)` (src/process/src/lib.rs:132), which leaves the
vector's *length* at `0`.  Consequently the byte size passed to the outer
`K32EnumProcessModulesEx` call is `size_of::<isize>() * modules.len() = 0`
(no module handles are ever written into the vector), and the subsequent
`modules.iter().take(needed / size_of::<isize>())` iterates over the
vector's zero elements — the per-module loop body never runs, whatever
`needed` the call reported.  This is made explicit below: the handle list
handed to `moduleLoop` is `[].take (needed / 8)`, which is empty. -/
def getProcessModules (env : OsEnv) (h : Nat) : Except ProcessError (List ProcessModule) :=
  if env.modEnumOk h = false then
    Except.error (ProcessError.ModuleEnumeration (h % 2 ^ 32) (env.modEnumErr h))
  else
    moduleLoop env h (([] : List Nat).take (env.modNeeded h / 8))

/-- Embeds the candidate loop of `Process::new`
(src/process/src/lib.rs:86-123): for each enumerated pid, open it
(`continue` on a null handle), query its base module name (`continue` on a
`0` return), compare the name to the target with `String` equality, and on
the first match enumerate its modules (propagating that call's error with
`?`) and assemble the `Process`.  An exhausted list yields
`NotFound(exe_name)` (src/process/src/lib.rs:126). -/
def locateLoop (env : OsEnv) (exeName : String) : List Nat → Except ProcessError Process
  | [] => Except.error (ProcessError.NotFound exeName)
  | pid :: rest =>
    let handle := env.openHandle pid
    if handle = 0 then
      locateLoop env exeName rest
    else if env.nameOk handle = false then
      locateLoop env exeName rest
    else
      let nameStr := env.nameOf handle
      if nameStr = exeName then
        match getProcessModules env handle with
        | Except.error e => Except.error e
        | Except.ok mods => Except.ok { name := nameStr, handle := handle, modules := mods }
      else
        locateLoop env exeName rest

/-- Embeds `Process::new` (src/process/src/lib.rs:75-127).  A failed
`K32EnumProcesses` aborts with `ProcessEnumeration(GetLastError())`; on
success the source iterates `processes.iter().take(needed / 4)` over its
fixed 1024-entry buffer.  The syscall was told the buffer holds
`enumBufLen = 1024` *bytes* (the source passes the element count as the
byte-size `cb`, src/process/src/lib.rs:80), so it copies
`min (enumBufLen / 4) pids.length = min 256 pids.length` ids and reports
`needed` as four times that count: the candidate list is exactly
`env.pids.take enumSnapshotCap = env.pids.take 256`, and buffer entries
256..1023 are never written. -/
def Process.new (env : OsEnv) (exeName : String) : Except ProcessError Process :=
  if env.enumOk = false then
    Except.error (ProcessError.ProcessEnumeration env.enumErr)
  else
    locateLoop env exeName (env.pids.take enumSnapshotCap)

/-- Outcome of one `ReadProcessMemory` syscall as the environment decides
it: `ok` is the returned status (`false` models `FALSE`), `err` the
`GetLastError` code read on failure, and `bytes` the bytes the syscall
copied into the destination buffer.  The OS sets `*lpNumberOfBytesRead` to
exactly the number of bytes it copied, and it never copies more than the
requested size, so for a request of `sz` bytes the transferred data is
`bytes.take sz` and the reported count is `(bytes.take sz).length`. -/
structure ReadOutcome where
  ok : Bool
  err : Nat
  bytes : List UInt8
  deriving DecidableEq, Repr

/-- Oracle model of the OS surface used by `RemoteStruct::read`:
`read handle addr sz` is the outcome of `ReadProcessMemory` on that
process handle, virtual address and requested byte count. -/
structure MemEnv where
  read : Nat → Nat → Nat → ReadOutcome

/-- Embeds `struct RemoteStruct<T>` (src/process/src/lib.rs:259-265) for a
record type `T` whose size is `n` bytes: the live instance `t` is its byte
image (`List UInt8`, length `n` for any overlay the constructor builds),
`module` the module index, `address` the offset from that module's base,
and `process` the owned `Process`. -/
structure RemoteStruct (n : Nat) where
  t : List UInt8
  module : Nat
  address : Nat
  process : Process
  deriving DecidableEq, Repr

/-- Embeds `RemoteStruct::<T>::new` (src/process/src/lib.rs:267-280) for a
record type of size `n` whose `T::default()` has byte image `dflt`
(`dflt.length = n` for any actual Rust type).  The construction itself is a
plain record build: `t` is the default image, `module` is `0`, `address`
is the given offset, and the process is moved in.  No memory environment is
consulted — the constructor performs no remote read.  (The `log::debug!`
statement in the source formats `address + process.modules[0].base` only
when an externally installed logger has the debug level enabled; no logger
is installed anywhere in this repository, and logger state is outside the
embedded core, so the log call is not modelled.) -/
def RemoteStruct.new (n : Nat) (dflt : List UInt8) (process : Process) (address : Nat) :
    RemoteStruct n :=
  { t := dflt, module := 0, address := address, process := process }

/-- Embeds `RemoteStruct::<T>::read` (src/process/src/lib.rs:282-304).
The source indexes `self.process.modules[self.module]`, which panics when
the index is out of bounds: that panic is modelled as `none`.  Otherwise
the read address is `modules[module].base + address` (wrapping `u64`
addition), and `ReadProcessMemory` is asked for exactly
`t_size = size_of::<T>() = n` bytes *directly into* `self.t`; the bytes the
syscall transfers overwrite the front of `t` in every branch.  A `FALSE`
status yields `Read(read_addr, GetLastError(), read)`; otherwise `Ok(())`
exactly when the transferred count equals `t_size`, else
`IncorrectSize(t_size, read)`.  The result pairs the `Result` value with
the (possibly mutated) overlay. -/
def RemoteStruct.read {n : Nat} (env : MemEnv) (rs : RemoteStruct n) :
    Option (Except MemoryError Unit × RemoteStruct n) :=
  match rs.process.modules.get? rs.module with
  | none => none
  | some m =>
    let readAddr := (m.base + rs.address) % 2 ^ 64
    let o := env.read rs.process.handle readAddr n
    let data := o.bytes.take n
    let rd := data.length
    let t1 := data ++ rs.t.drop rd
    if o.ok = false then
      some (Except.error (MemoryError.Read readAddr o.err rd), { rs with t := t1 })
    else if rd = n then
      some (Except.ok (), { rs with t := t1 })
    else
      some (Except.error (MemoryError.IncorrectSize n rd), { rs with t := t1 })

/-- Embeds `struct UnknownField<const N: usize>`
(src/process/src/lib.rs:213-217): an `N`-byte opaque block.  The Rust field
is `[u8; N]`, so the byte list always has length exactly `N`. -/
structure UnknownField (n : Nat) where
  data : List UInt8
  len_eq : data.length = n
  deriving DecidableEq

/-- Embeds `impl PartialEq for UnknownField<N>`
(src/process/src/lib.rs:229-239): walk the two byte arrays in lockstep and
return `false` at the first mismatching pair, `true` if none mismatches.
(The source zips the two arrays; both always have length `N`.) -/
def UnknownField.eq {n : Nat} (a b : UnknownField n) : Bool :=
  (a.data.zip b.data).all fun p => p.1 == p.2

/-- Embeds `impl Default for UnknownField<N>`
(src/process/src/lib.rs:241-245): all `N` bytes zero. -/
def UnknownField.dflt (n : Nat) : UnknownField n :=
  ⟨List.replicate n 0, by simp⟩

/-! ### Concrete environments used as test inputs -/

/-- A baseline OS oracle: enumeration succeeds over an empty process table,
every open fails, every other query succeeds with zeroed outputs. -/
def osEnv0 : OsEnv where
  enumOk := true
  enumErr := 0
  pids := []
  openHandle := fun _ => 0
  nameOk := fun _ => true
  nameOf := fun _ => ""
  modEnumOk := fun _ => true
  modEnumErr := fun _ => 0
  modNeeded := fun _ => 0
  modInnerOk := fun _ _ => true
  modInnerErr := fun _ _ => 0
  modInfoOk := fun _ _ => true
  modInfoErr := fun _ _ => 0
  modInfoBase := fun _ _ => 0
  modInfoSize := fun _ _ => 0

/-- One visible process (pid 5, handle 9) named "ffxiv.exe"; its module
enumeration reports 16 needed bytes (two module handles). -/
def envC2 : OsEnv :=
  { osEnv0 with
    pids := [5]
    openHandle := fun p => if p = 5 then 9 else 0
    nameOf := fun h => if h = 9 then "ffxiv.exe" else ""
    modNeeded := fun _ => 16 }

/-- Module enumeration succeeds only on handle 1 (error code 13 otherwise)
and reports 800 needed bytes (a hundred module handles); the inner
per-module queries are set to fail, which can never be observed. -/
def envC3 : OsEnv :=
  { osEnv0 with
    modEnumOk := fun h => h == 1
    modEnumErr := fun _ => 13
    modNeeded := fun _ => 800
    modInnerOk := fun _ _ => false
    modInnerErr := fun _ _ => 99
    modInfoOk := fun _ _ => false
    modInfoErr := fun _ _ => 98 }

/-- A process table of 257 pids in which only pid 256 — the one past the
256-pid snapshot the byte-sized buffer can hold — can be opened
(handle 7) and is named "ffxiv.exe". -/
def envC4 : OsEnv :=
  { osEnv0 with
    pids := List.range 257
    openHandle := fun p => if p = 256 then 7 else 0
    nameOf := fun h => if h = 7 then "ffxiv.exe" else "" }

/-- Pid 5 opens as handle 9 but its base-module-name query fails; pid 6
cannot be opened. -/
def envC5 : OsEnv :=
  { osEnv0 with
    pids := [5, 6]
    openHandle := fun p => if p = 5 then 9 else 0
    nameOk := fun h => h != 9 }

/-- Pid 5 opens as handle 9, is named "x", and its module enumeration
fails with error code 6. -/
def envC5b : OsEnv :=
  { osEnv0 with
    pids := [5]
    openHandle := fun p => if p = 5 then 9 else 0
    nameOf := fun h => if h = 9 then "x" else ""
    modEnumOk := fun _ => false
    modEnumErr := fun _ => 6 }

/-- One visible process whose base module name "FFXIV.exe" differs from
the target "ffxiv.exe" only in letter case. -/
def envC6 : OsEnv :=
  { osEnv0 with
    pids := [3]
    openHandle := fun p => if p = 3 then 4 else 0
    nameOf := fun h => if h = 4 then "FFXIV.exe" else "" }

/-- The main module of the concrete test process: base address 4096,
image size 64. -/
def pm1 : ProcessModule :=
  { name := "ffxiv.exe", base := 4096, size := 64 }

/-- A concrete located process with handle 5 and a one-module list. -/
def p1 : Process :=
  { name := "ffxiv.exe", handle := 5, modules := [pm1] }

/-- An overlay of a 4-byte record bound at `module[0].base + 0` of `p1`,
holding the all-zero default image. -/
def rs0 : RemoteStruct 4 :=
  RemoteStruct.new 4 [0, 0, 0, 0] p1 0

/-- Remote memory that answers every read with success but transfers only
one byte, `0xAB`. -/
def envShort : MemEnv :=
  ⟨fun _ _ _ => { ok := true, err := 0, bytes := [171] }⟩

/-- Remote memory that fails every read with error code 299
(`ERROR_PARTIAL_COPY`) after transferring one byte, `0x07`. -/
def envFail : MemEnv :=
  ⟨fun _ _ _ => { ok := false, err := 299, bytes := [7] }⟩

/-- Remote memory that answers every 4-byte read in full with the image
`[0x12, 0x34, 0x56, 0x78]`. -/
def envFull : MemEnv :=
  ⟨fun _ _ _ => { ok := true, err := 0, bytes := [18, 52, 86, 120] }⟩

/-! ### Helper lemmas -/

/-- If no candidate in the list carries the target name, the candidate
loop of `Process::new` falls through to `NotFound`. -/
theorem locateLoop_not_found (env : OsEnv) (exeName : String) :
    ∀ l : List Nat, (∀ pid ∈ l, env.nameOf (env.openHandle pid) ≠ exeName) →
      locateLoop env exeName l = Except.error (ProcessError.NotFound exeName)
  | [], _ => rfl
  | pid :: rest, h => by
    have hrest := locateLoop_not_found env exeName rest
      fun p hp => h p (List.mem_cons_of_mem _ hp)
    have hname : env.nameOf (env.openHandle pid) ≠ exeName := h pid (List.mem_cons_self _ _)
    unfold locateLoop
    by_cases h0 : env.openHandle pid = 0
    · simp [h0, hrest]
    · by_cases h1 : env.nameOk (env.openHandle pid) = false
      · simp [h0, h1, hrest]
      · simp [h0, h1, hname, hrest]

/-- When the outer module-enumeration syscall succeeds,
`get_process_modules` returns the empty list: its module-handle vector has
length zero, so the per-module loop never runs. -/
theorem getProcessModules_of_enum_ok (env : OsEnv) (h : Nat)
    (hok : env.modEnumOk h = true) :
    getProcessModules env h = Except.ok [] := by
  unfold getProcessModules
  simp [hok, List.take_nil, moduleLoop]

/-- Any `Process` the candidate loop assembles has an empty module list. -/
theorem locateLoop_ok_modules (env : OsEnv) (exeName : String) :
    ∀ (l : List Nat) (p : Process),
      locateLoop env exeName l = Except.ok p → p.modules = []
  | [], p, h => by simp [locateLoop] at h
  | pid :: rest, p, h => by
    unfold locateLoop at h
    by_cases h0 : env.openHandle pid = 0
    · simp only [h0, if_pos rfl] at h
      exact locateLoop_ok_modules env exeName rest p h
    · simp only [if_neg h0] at h
      by_cases h1 : env.nameOk (env.openHandle pid) = false
      · rw [if_pos h1] at h
        exact locateLoop_ok_modules env exeName rest p h
      · rw [if_neg h1] at h
        by_cases h2 : env.nameOf (env.openHandle pid) = exeName
        · rw [if_pos h2] at h
          by_cases h3 : env.modEnumOk (env.openHandle pid) = true
          · rw [getProcessModules_of_enum_ok env _ h3] at h
            cases h
            rfl
          · have h4 : env.modEnumOk (env.openHandle pid) = false := by
              cases hb : env.modEnumOk (env.openHandle pid)
              · rfl
              · exact absurd hb h3
            rw [show getProcessModules env (env.openHandle pid) =
                  Except.error (ProcessError.ModuleEnumeration
                    (env.openHandle pid % 2 ^ 32)
                    (env.modEnumErr (env.openHandle pid))) by
                unfold getProcessModules
                rw [h4]
                simp] at h
            simp at h
        · rw [if_neg h2] at h
          exact locateLoop_ok_modules env exeName rest p h

/-- The per-module loop only reads the inner-enumeration and
module-information oracles of the environment. -/
theorem moduleLoop_congr (env env' : OsEnv) (h : Nat)
    (hio : env'.modInnerOk = env.modInnerOk) (hie : env'.modInnerErr = env.modInnerErr)
    (hfo : env'.modInfoOk = env.modInfoOk) (hfe : env'.modInfoErr = env.modInfoErr)
    (hfb : env'.modInfoBase = env.modInfoBase) (hfs : env'.modInfoSize = env.modInfoSize) :
    ∀ l : List Nat, moduleLoop env' h l = moduleLoop env h l
  | [] => rfl
  | m :: rest => by
    unfold moduleLoop
    rw [hio, hie, hfo, hfe, hfb, hfs,
      moduleLoop_congr env env' h hio hie hfo hfe hfb hfs rest]

/-- `get_process_modules` only reads the module-query oracles of the
environment. -/
theorem getProcessModules_congr (env env' : OsEnv)
    (hmo : env'.modEnumOk = env.modEnumOk) (hme : env'.modEnumErr = env.modEnumErr)
    (hmn : env'.modNeeded = env.modNeeded)
    (hio : env'.modInnerOk = env.modInnerOk) (hie : env'.modInnerErr = env.modInnerErr)
    (hfo : env'.modInfoOk = env.modInfoOk) (hfe : env'.modInfoErr = env.modInfoErr)
    (hfb : env'.modInfoBase = env.modInfoBase) (hfs : env'.modInfoSize = env.modInfoSize)
    (h : Nat) :
    getProcessModules env' h = getProcessModules env h := by
  unfold getProcessModules
  rw [hmo, hme, hmn, moduleLoop_congr env env' h hio hie hfo hfe hfb hfs]

/-- The candidate loop never reads the `pids` field of the environment:
only the open, name and module oracles influence it. -/
theorem locateLoop_congr (env env' : OsEnv) (exeName : String)
    (hoh : env'.openHandle = env.openHandle)
    (hnk : env'.nameOk = env.nameOk) (hnf : env'.nameOf = env.nameOf)
    (hmo : env'.modEnumOk = env.modEnumOk) (hme : env'.modEnumErr = env.modEnumErr)
    (hmn : env'.modNeeded = env.modNeeded)
    (hio : env'.modInnerOk = env.modInnerOk) (hie : env'.modInnerErr = env.modInnerErr)
    (hfo : env'.modInfoOk = env.modInfoOk) (hfe : env'.modInfoErr = env.modInfoErr)
    (hfb : env'.modInfoBase = env.modInfoBase) (hfs : env'.modInfoSize = env.modInfoSize) :
    ∀ l : List Nat, locateLoop env' exeName l = locateLoop env exeName l
  | [] => rfl
  | pid :: rest => by
    unfold locateLoop
    rw [hoh, hnk, hnf,
      locateLoop_congr env env' exeName hoh hnk hnf hmo hme hmn hio hie hfo hfe hfb hfs rest]
    simp only [getProcessModules_congr env env' hmo hme hmn hio hie hfo hfe hfb hfs]

/-- Two equal-length byte lists pass the zipped pairwise-equality scan of
`UnknownField::eq` exactly when they are equal. -/
theorem zip_all_eq_iff :
    ∀ l1 l2 : List UInt8, l1.length = l2.length →
      ((((l1.zip l2).all fun p => p.1 == p.2) = true) ↔ l1 = l2)
  | [], [], _ => by simp
  | [], _ :: _, h => by simp at h
  | _ :: _, [], h => by simp at h
  | a :: l1, b :: l2, h => by
    simp only [List.zip_cons_cons, List.all_cons, Bool.and_eq_true, beq_iff_eq,
      List.cons.injEq]
    rw [zip_all_eq_iff l1 l2 (by simpa using h)]

/-! ### Claim theorems -/

/-- C2 (code bug): every `Process` that `Process::new` returns successfully
has an *empty* module list — the claimed invariant "a valid Process always
has at least one module, module 0 being the main executable image" never
holds.  The module-handle vector is created with `Vec::with_capacity(1024)`
and thus has length zero, so `get_process_modules` fills nothing. -/
theorem c2_located_process_modules_empty (env : OsEnv) (exeName : String) (p : Process)
    (h : Process.new env exeName = Except.ok p) : p.modules = [] := by
  unfold Process.new at h
  by_cases he : env.enumOk = false
  · rw [if_pos he] at h
    simp at h
  · rw [if_neg he] at h
    exact locateLoop_ok_modules env exeName _ p h

/-- C2 witness: in `envC2` the target "ffxiv.exe" is visible and located,
and the resulting `Process` value has no modules. -/
theorem c2_witness : (Process.mk "ffxiv.exe" 9 []).modules = [] :=
  c2_located_process_modules_empty envC2 "ffxiv.exe" (Process.mk "ffxiv.exe" 9 []) rfl

/-- C3 (code bug): module enumeration never resolves any module name or
module information.  Whatever the per-module oracles would answer
(`envC3` even sets them all to fail), `get_process_modules` returns the
empty list when the outer enumeration call succeeds, and the outer call's
failure is the only error it can ever report: the name-resolution step of
the claim does not exist in the code (the source calls
`K32EnumProcessModulesEx`, not the module-name query, and its
zero-length handle vector keeps the loop from running at all). -/
theorem c3_no_per_module_queries (env : OsEnv) (h : Nat) :
    (env.modEnumOk h = true → getProcessModules env h = Except.ok []) ∧
    (env.modEnumOk h = false → getProcessModules env h =
      Except.error (ProcessError.ModuleEnumeration (h % 2 ^ 32) (env.modEnumErr h))) := by
  constructor
  · exact getProcessModules_of_enum_ok env h
  · intro hf
    unfold getProcessModules
    rw [hf]
    simp

/-- C3 witness: in `envC3` 100 module handles are reported as needed and
every per-module query is set to fail, yet enumeration on handle 1 returns
the empty list; on handle 2 the outer call fails and is reported. -/
theorem c3_witness :
    getProcessModules envC3 1 = Except.ok [] ∧
    getProcessModules envC3 2 = Except.error (ProcessError.ModuleEnumeration 2 13) :=
  ⟨(c3_no_per_module_queries envC3 1).1 rfl, (c3_no_per_module_queries envC3 2).2 rfl⟩

/-- C4 counterexample: with 257 visible processes of which exactly the
257th (pid 256) is openable and named "ffxiv.exe", `Process::new` returns
`NotFound("ffxiv.exe")` — the snapshot, limited to 256 pids because the
source hands `K32EnumProcesses` its element count 1024 as a *byte* size,
silently drops the candidate past the bound instead of detecting or
surfacing the overflow, refuting the claim. -/
theorem c4_counterexample :
    envC4.pids.length = 257 ∧ enumSnapshotCap = 256 ∧
    (256 : Nat) ∈ envC4.pids ∧ envC4.openHandle 256 = 7 ∧
    envC4.nameOf 7 = "ffxiv.exe" ∧
    Process.new envC4 "ffxiv.exe" = Except.error (ProcessError.NotFound "ffxiv.exe") := by
  refine ⟨by simp [envC4, osEnv0], rfl, by simp [envC4, osEnv0], rfl, rfl, ?_⟩
  unfold Process.new
  rw [if_neg (by simp [envC4, osEnv0])]
  apply locateLoop_not_found
  intro pid hp
  have htake : envC4.pids.take enumSnapshotCap = List.range 256 := by
    simp [envC4, osEnv0, enumSnapshotCap, enumBufLen, List.take_range]
  rw [htake] at hp
  have hne : pid ≠ 256 := Nat.ne_of_lt (List.mem_range.mp hp)
  show envC4.nameOf (envC4.openHandle pid) ≠ "ffxiv.exe"
  simp only [envC4, osEnv0]
  rw [if_neg hne]
  decide

/-- C4 (amended): `Process::new` never detects a process-table overflow:
its result depends only on the first 256 enumerated process ids — the
fixed buffer is even shrunk fourfold by the bytes-vs-elements confusion
in its size argument — and any processes past that bound are silently
ignored. -/
theorem c4_amended_truncation (env : OsEnv) (exeName : String) :
    Process.new env exeName =
      Process.new { env with pids := env.pids.take enumSnapshotCap } exeName := by
  unfold Process.new
  rw [show ({ env with pids := env.pids.take enumSnapshotCap } : OsEnv).enumOk = env.enumOk
      from rfl,
    show ({ env with pids := env.pids.take enumSnapshotCap } : OsEnv).pids =
      env.pids.take enumSnapshotCap from rfl,
    List.take_take, min_self,
    locateLoop_congr env { env with pids := env.pids.take enumSnapshotCap } exeName
      rfl rfl rfl rfl rfl rfl rfl rfl rfl rfl rfl rfl (env.pids.take enumSnapshotCap)]

/-- C5 counterexample: in `envC5` pid 5 opens successfully (handle 9) but
its base-module-name query fails; the claim requires that failure to abort
`locate` with a typed error carrying the handle and OS code, yet the code
silently skips the candidate and ends with `NotFound("x")`. -/
theorem c5_counterexample :
    envC5.openHandle 5 ≠ 0 ∧ envC5.nameOk (envC5.openHandle 5) = false ∧
    Process.new envC5 "x" = Except.error (ProcessError.NotFound "x") :=
  ⟨by decide, rfl, rfl⟩

/-- C5 (amended): per candidate, *two* failures are silently swallowed by
the locate loop — a failed open (null handle) and a failed
base-module-name query both skip to the next candidate — while a failed
module enumeration on the matched candidate aborts with
`ModuleEnumeration(handle, code)`. -/
theorem c5_amended_skip_policy (env : OsEnv) (exeName : String) (pid : Nat)
    (rest : List Nat) :
    (env.openHandle pid = 0 →
      locateLoop env exeName (pid :: rest) = locateLoop env exeName rest) ∧
    (env.openHandle pid ≠ 0 → env.nameOk (env.openHandle pid) = false →
      locateLoop env exeName (pid :: rest) = locateLoop env exeName rest) ∧
    (env.openHandle pid ≠ 0 → env.nameOk (env.openHandle pid) = true →
      env.nameOf (env.openHandle pid) = exeName →
      env.modEnumOk (env.openHandle pid) = false →
      locateLoop env exeName (pid :: rest) =
        Except.error (ProcessError.ModuleEnumeration (env.openHandle pid % 2 ^ 32)
          (env.modEnumErr (env.openHandle pid)))) := by
  refine ⟨fun h0 => ?_, fun h0 h1 => ?_, fun h0 h1 h2 h3 => ?_⟩
  · conv_lhs => unfold locateLoop
    simp [h0]
  · conv_lhs => unfold locateLoop
    simp [h0, h1]
  · conv_lhs => unfold locateLoop
    simp [h0, h1, h2, h3, getProcessModules]

/-- C5 witness: the name-query failure in `envC5` skips pid 5 exactly like
a failed open, and the matched candidate of `envC5b` aborts the locate
with `ModuleEnumeration(9, 6)` when its module enumeration fails. -/
theorem c5_witness :
    locateLoop envC5 "x" [5, 6] = locateLoop envC5 "x" [6] ∧
    locateLoop envC5b "x" [5] =
      Except.error (ProcessError.ModuleEnumeration 9 6) :=
  ⟨(c5_amended_skip_policy envC5 "x" 5 [6]).2.1 (by decide) rfl,
   (c5_amended_skip_policy envC5b "x" 5 []).2.2 (by decide) rfl rfl rfl⟩

/-- C6: whenever process enumeration succeeds and no process in the table
carries a base module name exactly (string-) equal to the target,
`Process::new` returns precisely `NotFound(target)` and no other error.
Matching is `String` equality, hence case-sensitive: names differing from
the target only in case (see the witness) fall under the hypothesis. -/
theorem c6_absent_notfound (env : OsEnv) (exeName : String)
    (henum : env.enumOk = true)
    (habs : ∀ pid ∈ env.pids, env.nameOf (env.openHandle pid) ≠ exeName) :
    Process.new env exeName = Except.error (ProcessError.NotFound exeName) := by
  unfold Process.new
  rw [if_neg (by simp [henum])]
  exact locateLoop_not_found env exeName _
    fun p hp => habs p (List.take_subset _ _ hp)

/-- C6 witness: the only visible process is named "FFXIV.exe", which
differs from the target "ffxiv.exe" only in case, and locate returns
`NotFound("ffxiv.exe")`. -/
theorem c6_witness :
    Process.new envC6 "ffxiv.exe" = Except.error (ProcessError.NotFound "ffxiv.exe") :=
  c6_absent_notfound envC6 "ffxiv.exe" rfl (by decide)

/-- C1 counterexample: a simulated short read (4 bytes requested, 1 byte
`0xAB` transferred with success status) makes `refresh` return
`IncorrectSize(4, 1)` as claimed, but the bound record is *not* bit-for-bit
unchanged: its first byte is overwritten with the transferred `0xAB`,
because the syscall reads directly into the record's memory. -/
theorem c1_counterexample :
    RemoteStruct.read envShort rs0 =
      some (Except.error (MemoryError.IncorrectSize 4 1),
        { rs0 with t := [171, 0, 0, 0] }) ∧
    rs0.t = [0, 0, 0, 0] ∧ ([171, 0, 0, 0] : List UInt8) ≠ [0, 0, 0, 0] :=
  ⟨rfl, rfl, by decide⟩

/-- C1 (amended): when the read syscall reports success but transfers
fewer than `size_of(R)` bytes, `refresh` returns
`IncorrectSize(size_of(R), actual)` — but the transferred bytes are
committed into the front of the record (the read targets the record's
memory directly); only the bytes from index `actual` onward are left
unchanged, and the record is wholly replaced only when `actual`
equals `size_of(R)`. -/
theorem c1_amended_short_read (n : Nat) (env : MemEnv) (rs : RemoteStruct n)
    (m : ProcessModule) (o : ReadOutcome)
    (hm : rs.process.modules.get? rs.module = some m)
    (ho : env.read rs.process.handle ((m.base + rs.address) % 2 ^ 64) n = o)
    (hok : o.ok = true) (hcnt : (o.bytes.take n).length ≠ n) :
    RemoteStruct.read env rs =
      some (Except.error (MemoryError.IncorrectSize n (o.bytes.take n).length),
        { rs with t := o.bytes.take n ++ rs.t.drop (o.bytes.take n).length }) ∧
    (o.bytes.take n ++ rs.t.drop (o.bytes.take n).length).drop (o.bytes.take n).length =
      rs.t.drop (o.bytes.take n).length := by
  constructor
  · have hlt : o.bytes.length < n := by
      rw [List.length_take] at hcnt
      omega
    simp only [RemoteStruct.read, hm]
    rw [ho]
    simp [hok, hcnt, hlt]
  · exact List.drop_left _ _

/-- C1 witness: the amended statement evaluated on the concrete short
read of `envShort`: `IncorrectSize(4, 1)` is returned, the record becomes
`[0xAB, 0, 0, 0]`, and the bytes past index 1 are unchanged. -/
theorem c1_witness :
    RemoteStruct.read envShort rs0 =
      some (Except.error (MemoryError.IncorrectSize 4 1),
        { rs0 with t := [171, 0, 0, 0] }) ∧
    ([171, 0, 0, 0] : List UInt8).drop 1 = rs0.t.drop 1 :=
  c1_amended_short_read 4 envShort rs0 pm1 (ReadOutcome.mk true 0 [171])
    rfl rfl rfl (by decide)

/-- C7: with a valid module index, `refresh` consults the read oracle at
exactly `modules[module].base + offset` for exactly `n = size_of(R)`
bytes, and: on syscall success it returns `Ok` precisely when the
transferred count is `n` and `IncorrectSize(n, count)` otherwise, while a
syscall-level failure returns `Read(address, code, count)` carrying the
address, the OS error code and the partial count. -/
theorem c7_refresh_read_contract (n : Nat) (env : MemEnv) (rs : RemoteStruct n)
    (m : ProcessModule) (o : ReadOutcome)
    (hm : rs.process.modules.get? rs.module = some m)
    (hfit : m.base + rs.address < 2 ^ 64)
    (ho : env.read rs.process.handle (m.base + rs.address) n = o) :
    (o.ok = true → (o.bytes.take n).length = n →
      RemoteStruct.read env rs =
        some (Except.ok (), { rs with t := o.bytes.take n ++ rs.t.drop n })) ∧
    (o.ok = true → (o.bytes.take n).length ≠ n →
      RemoteStruct.read env rs =
        some (Except.error (MemoryError.IncorrectSize n (o.bytes.take n).length),
          { rs with t := o.bytes.take n ++ rs.t.drop (o.bytes.take n).length })) ∧
    (o.ok = false →
      RemoteStruct.read env rs =
        some (Except.error
            (MemoryError.Read (m.base + rs.address) o.err (o.bytes.take n).length),
          { rs with t := o.bytes.take n ++ rs.t.drop (o.bytes.take n).length })) := by
  have hmod : (m.base + rs.address) % 2 ^ 64 = m.base + rs.address :=
    Nat.mod_eq_of_lt hfit
  refine ⟨fun hok hlen => ?_, fun hok hlen => ?_, fun hok => ?_⟩
  · simp only [RemoteStruct.read, hm]
    rw [hmod, ho]
    simp [hok, hlen]
  · have hlt : o.bytes.length < n := by
      rw [List.length_take] at hlen
      omega
    simp only [RemoteStruct.read, hm]
    rw [hmod, ho]
    simp [hok, hlen, hlt]
  · simp only [RemoteStruct.read, hm]
    rw [hmod, ho]
    simp [hok]

/-- C7 witness: against `envFull` the full 4-byte read at
`4096 = modules[0].base + 0` succeeds and installs the image; against
`envFail` the failing syscall yields `Read(4096, 299, 1)` with the
1-byte partial count. -/
theorem c7_witness :
    RemoteStruct.read envFull rs0 =
      some (Except.ok (), { rs0 with t := [18, 52, 86, 120] }) ∧
    RemoteStruct.read envFail rs0 =
      some (Except.error (MemoryError.Read 4096 299 1), { rs0 with t := [7, 0, 0, 0] }) :=
  ⟨(c7_refresh_read_contract 4 envFull rs0 pm1 (ReadOutcome.mk true 0 [18, 52, 86, 120])
      rfl (by decide) rfl).1 rfl rfl,
   (c7_refresh_read_contract 4 envFail rs0 pm1 (ReadOutcome.mk false 299 [7])
      rfl (by decide) rfl).2.2 rfl⟩

/-- C8: `RemoteStruct::new` is a total constructor: for every process and
offset it returns the overlay whose record is the default image, whose
module index is 0 and whose stored offset is the given offset, consulting
no memory environment (no remote read is performed). -/
theorem c8_bind_contract (n : Nat) (dflt : List UInt8) (process : Process) (address : Nat) :
    (RemoteStruct.new n dflt process address).t = dflt ∧
    (RemoteStruct.new n dflt process address).module = 0 ∧
    (RemoteStruct.new n dflt process address).address = address ∧
    (RemoteStruct.new n dflt process address).process = process :=
  ⟨rfl, rfl, rfl, rfl⟩

/-- C9: binding an overlay at `module[0].base + 0` and refreshing against
remote memory whose image at that address is a known record's byte image
reproduces exactly that record, and refreshing a second time against the
unchanged memory yields the byte-identical record again. -/
theorem c9_roundtrip_idempotent (n : Nat) (env : MemEnv) (dflt recBytes : List UInt8)
    (p : Process) (m : ProcessModule)
    (hm : p.modules.get? 0 = some m)
    (hd : dflt.length = n) (hr : recBytes.length = n)
    (hok : (env.read p.handle ((m.base + 0) % 2 ^ 64) n).ok = true)
    (hb : (env.read p.handle ((m.base + 0) % 2 ^ 64) n).bytes = recBytes) :
    RemoteStruct.read env (RemoteStruct.new n dflt p 0) =
      some (Except.ok (), ({ RemoteStruct.new n dflt p 0 with t := recBytes } :
        RemoteStruct n)) ∧
    RemoteStruct.read env ({ RemoteStruct.new n dflt p 0 with t := recBytes } :
        RemoteStruct n) =
      some (Except.ok (), ({ RemoteStruct.new n dflt p 0 with t := recBytes } :
        RemoteStruct n)) := by
  have hdata : (env.read p.handle ((m.base + 0) % 2 ^ 64) n).bytes.take n = recBytes := by
    rw [hb, ← hr, List.take_length]
  have key : ∀ t0 : List UInt8, t0.length = n →
      RemoteStruct.read env (RemoteStruct.mk t0 0 0 p : RemoteStruct n) =
        some (Except.ok (), (RemoteStruct.mk recBytes 0 0 p : RemoteStruct n)) := by
    intro t0 ht0
    have hdrop : t0.drop recBytes.length = [] := by
      rw [hr, ← ht0, List.drop_length]
    simp only [RemoteStruct.read, hm]
    simp only [hdata, hdrop, List.append_nil, hok, hr]
    simp
    omega
  exact ⟨key dflt hd, key recBytes hr⟩

/-- C9 witness: refreshing the freshly bound `rs0` against `envFull`
installs the image `[0x12, 0x34, 0x56, 0x78]`, and refreshing the result
again against the unchanged memory leaves it byte-identical. -/
theorem c9_witness :
    RemoteStruct.read envFull rs0 =
      some (Except.ok (), ({ rs0 with t := [18, 52, 86, 120] } : RemoteStruct 4)) ∧
    RemoteStruct.read envFull ({ rs0 with t := [18, 52, 86, 120] } : RemoteStruct 4) =
      some (Except.ok (), ({ rs0 with t := [18, 52, 86, 120] } : RemoteStruct 4)) :=
  c9_roundtrip_idempotent 4 envFull [0, 0, 0, 0] [18, 52, 86, 120] p1 pm1
    rfl rfl rfl rfl rfl

/-- C10: two `UnknownField<N>` values compare equal exactly when their
byte arrays agree (so differing in any single byte makes them unequal),
and the default-constructed placeholder is all-zero. -/
theorem c10_unknown_field (n : Nat) (a b : UnknownField n) :
    (UnknownField.eq a b = true ↔ a.data = b.data) ∧
    (UnknownField.dflt n).data = List.replicate n 0 :=
  ⟨zip_all_eq_iff a.data b.data (by rw [a.len_eq, b.len_eq]), rfl⟩

end XivTools
